import Mathlib

/-! Reverse tunnel of the upterm host (`host/internal/reversetunnel.go`).

A shallow embedding of `ReverseTunnel` and of the functions around it
(`sshDialError`, `PermissionDeniedError`, `isWSScheme`, `keepAlive`,
`serverInfo`, `Establish`, `Close`), followed by the properties established
about them.

Conventions of the embedding:

* a Go `string` is a Lean `String`; `strings.Contains` is a search over the
  character sequence (the fixed signature searched for is pure ASCII);
* a Go `error` is a value of `GoError`; `nil` errors and `nil` pointers are
  `none`;
* every call that leaves the file (the SSH library, `net/url`,
  `encoding/json`, `os/user`, the `api`, `ws` and `upterm` packages) is
  answered by an `Env`, and every such call with an effect is recorded, with
  its arguments and its answer, in a trace of `Event`s;
* a nil dereference is the outcome `Outcome.fault`;
* `keepAlive` is the loop over what its successive `select`s take, and a
  `Timing` derives what they take from the period of the ticker, the time of
  the cancellation, the time each probe takes and the choice of a `select`
  that finds a tick and the cancellation both ready.
-/

namespace Upterm

/-! ## Errors -/

/-- Go error values that reach or leave the file. -/
inductive GoError where
  /-- An error made outside the file; only its message is observed. -/
  | foreign (msg : String)
  /-- The value of `fmt.Errorf(msg)` with no `%w` verb. -/
  | errorString (msg : String)
  /-- The value of `fmt.Errorf(pfx + "%w", cause)`. -/
  | wrapError (pfx : String) (cause : GoError)
  /-- The value `&PermissionDeniedError{host, err}`. -/
  | permissionDenied (host : String) (err : GoError)
  deriving DecidableEq, Repr

/-- The method `Error()`; for `PermissionDeniedError` it is
`fmt.Sprintf("%s: Permission denied (publickey).", e.host)`. -/
def GoError.Error : GoError → String
  | .foreign msg => msg
  | .errorString msg => msg
  | .wrapError pfx cause => pfx ++ cause.Error
  | .permissionDenied host _ => host ++ ": Permission denied (publickey)."

/-- The method `Unwrap()`; for `PermissionDeniedError` it returns `e.err`. -/
def GoError.Unwrap : GoError → Option GoError
  | .foreign _ => none
  | .errorString _ => none
  | .wrapError _ cause => some cause
  | .permissionDenied _ err => some err

/-- Whether the dynamic type of the error is `*PermissionDeniedError`. -/
def GoError.isPermissionDenied : GoError → Bool
  | .permissionDenied _ _ => true
  | _ => false

/-- The constant `publickeyAuthError`. -/
def publickeyAuthError : String :=
  "ssh: unable to authenticate, attempted methods [none]"

/-- Search of `substr` in a character sequence, position by position. -/
def containsChars (substr : List Char) : List Char → Bool
  | [] => substr.isPrefixOf []
  | c :: s => substr.isPrefixOf (c :: s) || containsChars substr s

/-- The library function `strings.Contains(s, substr)`. -/
def stringsContains (s substr : String) : Bool :=
  containsChars substr.data s.data

/-- The function `sshDialError`. -/
def sshDialError (host : String) (err : GoError) : GoError :=
  if stringsContains err.Error publickeyAuthError then
    .permissionDenied host err
  else
    .wrapError "ssh dial error: " err

/-! ## Data -/

/-- A Go `[]byte`, as the list of its byte values. -/
abbrev Bytes := List Nat

/-- A `time.Duration`, in nanoseconds. -/
abbrev Duration := Int

/-- The value of `user.Current()`; `Username` is the one field read. -/
structure User where
  Username : String
  deriving DecidableEq, Repr

/-- Modelled from the spec: the enum of `api.Identifier`, whose declaration
is outside the file ("Identifier: {id: string, kind: enum}"); the file uses
`api.Identifier_HOST`. -/
inductive IdentifierType where
  | HOST
  | CLIENT
  deriving DecidableEq, Repr

/-- Modelled from the spec: `api.Identifier`, whose declaration is outside
the file ("Identifier: {id: string, kind: enum}"), with the two fields the
file sets. -/
structure Identifier where
  Id : String
  Type_ : IdentifierType
  deriving DecidableEq, Repr

/-- An `ssh.Signer`, by identity. -/
structure Signer where
  key : Nat
  deriving DecidableEq, Repr

/-- An `ssh.AuthMethod`; the file builds them with `ssh.PublicKeys`. -/
inductive AuthMethod where
  | publicKeys (signers : List Signer)
  deriving DecidableEq, Repr

/-- An `ssh.HostKeyCallback`; the file uses `ssh.InsecureIgnoreHostKey()`. -/
inductive HostKeyCallback where
  | insecureIgnoreHostKey
  deriving DecidableEq, Repr

/-- The fields of `ssh.ClientConfig` that `Establish` sets. -/
structure ClientConfig where
  User : String
  Auth : List AuthMethod
  ClientVersion : String
  HostKeyCallback : HostKeyCallback
  deriving DecidableEq, Repr

/-- The type `url.Userinfo`. -/
structure Userinfo where
  username : String
  password : String
  passwordSet : Bool
  deriving DecidableEq, Repr

/-- The library function `url.UserPassword`. -/
def urlUserPassword (username password : String) : Userinfo :=
  { username := username, password := password, passwordSet := true }

/-- The type `url.URL`. -/
structure URL where
  Scheme : String
  Opaque : String
  User : Option Userinfo
  Host : String
  Path : String
  RawPath : String
  ForceQuery : Bool
  RawQuery : String
  Fragment : String
  RawFragment : String
  deriving DecidableEq, Repr

/-- An open `*ssh.Client`, by identity. -/
structure Client where
  id : Nat
  deriving DecidableEq, Repr

/-- A non-nil `net.Listener`, by identity. -/
structure Listener where
  id : Nat
  deriving DecidableEq, Repr

/-- A `log.FieldLogger`, by identity. -/
structure Logger where
  id : Nat
  deriving DecidableEq, Repr

/-- Modelled from the spec: `server.ServerInfo`, whose declaration is
outside the file; the spec keeps it opaque ("opaque structured metadata
returned by the peer; passed through unmodified"), so it is a list of named
fields. -/
structure ServerInfo where
  fields : List (String × String)
  deriving DecidableEq, Repr

/-- The struct `ReverseTunnel`; the embedded `*ssh.Client` is the field
`Client`, and a nil `Client` or `ln` is `none`. -/
structure ReverseTunnel where
  Client : Option Client
  Host : URL
  SessionID : String
  Signers : List Signer
  KeepAliveDuration : Duration
  Logger : Logger
  ln : Option Listener
  deriving DecidableEq, Repr

/-- The answer of `Client.SendRequest`: the error, or the acknowledgment and
the reply body. -/
inductive Reply where
  | failed (err : GoError)
  | replied (ok : Bool) (body : Bytes)
  deriving DecidableEq, Repr

/-- The answer of a call returning a pointer and an error: either the error
(the pointer is then nil) or the value (the error is then nil). -/
inductive Answer (α : Type) where
  | failed (err : GoError)
  | value (a : α)
  deriving DecidableEq, Repr

/-- The calls with an effect that leave the file, each with its arguments
and its answer. -/
inductive Event where
  /-- The call `ws.NewSSHClient(u, config, isUptermClient)`. -/
  | wsNewSSHClient (u : URL) (config : ClientConfig) (isUptermClient : Bool)
      (res : Answer Client)
  /-- The call `ssh.Dial(network, addr, config)`. -/
  | sshDial (network addr : String) (config : ClientConfig) (res : Answer Client)
  /-- The call `client.Listen(network, addr)`. -/
  | listen (client : Client) (network addr : String) (res : Answer Listener)
  /-- The statement `go keepAlive(ctx, d, fn)`, `fn` probing `client`. -/
  | goKeepAlive (d : Duration) (client : Client)
  /-- The call `client.SendRequest(name, wantReply, payload)`. -/
  | sendRequest (client : Client) (name : String) (wantReply : Bool)
      (payload : Option Bytes) (res : Reply)
  /-- The call `logger.WithError(err).Error(msg)`. -/
  | logError (logger : Logger) (msg : String) (err : GoError)
  /-- The call `ln.Close()` and the error it returned. -/
  | listenerClose (ln : Listener) (res : Option GoError)
  /-- The call `client.Close()` and the error it returned. -/
  | clientClose (client : Client) (res : Option GoError)
  deriving DecidableEq, Repr

/-- What lies outside the file. A call with an effect is answered from its
arguments and from the trace of the calls made before it; a pure library
function is answered from its arguments. The three constants are those of
the package `upterm`. -/
structure Env where
  /-- The call `user.Current()`. -/
  userCurrent : Answer User
  /-- The function `api.EncodeIdentifier`. -/
  encodeIdentifier : Identifier → Answer String
  /-- The method `(*url.URL).String`. -/
  urlString : URL → String
  /-- The function `url.Parse`. -/
  urlParse : String → Answer URL
  /-- The function `json.Unmarshal` into a `*server.ServerInfo` that is nil
  before the call; the answer is the pointer after the call. -/
  jsonUnmarshal : Bytes → Answer (Option ServerInfo)
  /-- The constant `upterm.HostSSHClientVersion`. -/
  HostSSHClientVersion : String
  /-- The constant `upterm.OpenSSHKeepAliveRequestType`. -/
  OpenSSHKeepAliveRequestType : String
  /-- The constant `upterm.ServerServerInfoRequestType`. -/
  ServerServerInfoRequestType : String
  /-- The function `ws.NewSSHClient`. -/
  wsNewSSHClient : List Event → URL → ClientConfig → Bool → Answer Client
  /-- The function `ssh.Dial`. -/
  sshDial : List Event → String → String → ClientConfig → Answer Client
  /-- The method `(*ssh.Client).Listen`. -/
  listen : List Event → Client → String → String → Answer Listener
  /-- The method `(*ssh.Client).SendRequest`. -/
  sendRequest : List Event → Client → String → Bool → Option Bytes → Reply
  /-- The method `Close` of the listener; its value is the error returned. -/
  listenerClose : List Event → Listener → Option GoError
  /-- The method `Close` of the session; its value is the error returned. -/
  clientClose : List Event → Client → Option GoError

/-- How a call of the file ends: it returns, or it faults on a nil
dereference. -/
inductive Outcome (α : Type) where
  | ret (a : α)
  | fault
  deriving DecidableEq, Repr

/-- The state after a method of `ReverseTunnel` ran: the tunnel, the trace
of the calls made so far, and how the method ended. -/
structure Run (α : Type) where
  tunnel : ReverseTunnel
  trace : List Event
  result : Outcome α
  deriving DecidableEq, Repr

/-! ## Operations -/

/-- The function `isWSScheme`. -/
def isWSScheme (scheme : String) : Bool :=
  scheme == "ws" || scheme == "wss"

/-- The method `Listener`. -/
def ReverseTunnel.Listener (c : ReverseTunnel) : Option Listener :=
  c.ln

/-- The method `Close`: `c.ln.Close()` then `c.Client.Close()`, both errors
dropped; calling a method on the nil `ln` or the nil `Client` faults. -/
def ReverseTunnel.Close (env : Env) (c : ReverseTunnel) (tr : List Event) : Run Unit :=
  match c.ln with
  | none => { tunnel := c, trace := tr, result := .fault }
  | some l =>
    let tr1 := tr ++ [.listenerClose l (env.listenerClose tr l)]
    match c.Client with
    | none => { tunnel := c, trace := tr1, result := .fault }
    | some cl =>
      { tunnel := c, trace := tr1 ++ [.clientClose cl (env.clientClose tr1 cl)],
        result := .ret () }

/-- The method `serverInfo`; its value is the returned pair
`(*server.ServerInfo, error)`. -/
def ReverseTunnel.serverInfo (env : Env) (c : ReverseTunnel) (tr : List Event) :
    Run (Option ServerInfo × Option GoError) :=
  match c.Client with
  | none => { tunnel := c, trace := tr, result := .fault }
  | some cl =>
    let res := env.sendRequest tr cl env.ServerServerInfoRequestType true none
    let tr1 := tr ++ [.sendRequest cl env.ServerServerInfoRequestType true none res]
    match res with
    | .failed err =>
      { tunnel := c, trace := tr1,
        result := .ret (none, some (.wrapError "error fetching server info: " err)) }
    | .replied ok body =>
      if !ok then
        { tunnel := c, trace := tr1,
          result := .ret (none, some (.errorString "error fetching server info")) }
      else
        match env.jsonUnmarshal body with
        | .failed err =>
          { tunnel := c, trace := tr1,
            result := .ret (none, some (.wrapError "error unmarshaling server info: " err)) }
        | .value info => { tunnel := c, trace := tr1, result := .ret (info, none) }

/-- The `ssh.ClientConfig` that `Establish` builds. -/
def ReverseTunnel.clientConfig (env : Env) (c : ReverseTunnel) (encodedID : String) :
    ClientConfig :=
  { User := encodedID
    Auth := c.Signers.map fun signer => AuthMethod.publicKeys [signer]
    ClientVersion := env.HostSSHClientVersion
    HostKeyCallback := .insecureIgnoreHostKey }

/-- The statement `if isWSScheme(c.Host.Scheme) { ... } else { ... }` of
`Establish`: the answer of the dial and the trace after it. On the
web-socket branch `url.Parse` returns a nil `u` with its error, which is
dropped, and the assignment `u.User = ...` then faults. -/
def ReverseTunnel.dial (env : Env) (c : ReverseTunnel) (encodedID : String)
    (tr : List Event) : Outcome (Answer Upterm.Client × List Event) :=
  let config := c.clientConfig env encodedID
  if isWSScheme c.Host.Scheme then
    match env.urlParse (env.urlString c.Host) with
    | .failed _ => .fault
    | .value u =>
      let u1 := { u with User := some (urlUserPassword encodedID "") }
      let res := env.wsNewSSHClient tr u1 config false
      .ret (res, tr ++ [.wsNewSSHClient u1 config false res])
  else
    let res := env.sshDial tr "tcp" c.Host.Host config
    .ret (res, tr ++ [.sshDial "tcp" c.Host.Host config res])

/-- The method `Establish`; its value is the returned pair
`(*server.ServerInfo, error)`. -/
def ReverseTunnel.Establish (env : Env) (c : ReverseTunnel) (tr : List Event) :
    Run (Option ServerInfo × Option GoError) :=
  match env.userCurrent with
  | .failed err => { tunnel := c, trace := tr, result := .ret (none, some err) }
  | .value user =>
    match env.encodeIdentifier { Id := user.Username, Type_ := .HOST } with
    | .failed err => { tunnel := c, trace := tr, result := .ret (none, some err) }
    | .value encodedID =>
      match c.dial env encodedID tr with
      | .fault => { tunnel := c, trace := tr, result := .fault }
      | .ret (.failed err, tr1) =>
        { tunnel := { c with Client := none }, trace := tr1,
          result := .ret (none, some (sshDialError (env.urlString c.Host) err)) }
      | .ret (.value cl, tr1) =>
        let lres := env.listen tr1 cl "unix" c.SessionID
        let tr2 := tr1 ++ [.listen cl "unix" c.SessionID lres]
        match lres with
        | .failed err =>
          { tunnel := { c with Client := some cl, ln := none }, trace := tr2,
            result := .ret (none, some (.wrapError "unable to create reverse tunnel: " err)) }
        | .value l =>
          ReverseTunnel.serverInfo env { c with Client := some cl, ln := some l }
            (tr2 ++ [.goKeepAlive c.KeepAliveDuration cl])

/-- The closure that `Establish` hands to `keepAlive`, run on an open
session `cl`: one keepalive request, and a log entry when it fails. -/
def pingServer (env : Env) (logger : Logger) (cl : Client) (tr : List Event) :
    List Event :=
  let res := env.sendRequest tr cl env.OpenSSHKeepAliveRequestType true none
  let tr1 := tr ++ [.sendRequest cl env.OpenSSHKeepAliveRequestType true none res]
  match res with
  | .failed err => tr1 ++ [.logError logger "error pinging server" err]
  | .replied _ _ => tr1

/-- What one `select` of `keepAlive` receives: `<-ctx.Done()` or
`<-ticker.C`. -/
inductive Recv where
  | done
  | tick
  deriving DecidableEq, Repr

/-- The state of a run of `keepAlive`: the state `fn` acts on, the number of
calls of `fn` made, and whether the function has returned. -/
structure Loop (σ : Type) where
  state : σ
  calls : Nat
  returned : Bool
  deriving DecidableEq, Repr

/-- The loop of `keepAlive`, over what its successive `select`s receive:
`<-ctx.Done()` returns, `<-ticker.C` calls `fn` and loops; when nothing more
is received the loop is still waiting. -/
def keepAliveFrom {σ : Type} (fn : σ → σ) : List Recv → Loop σ → Loop σ
  | [], l => l
  | .done :: _, l => { l with returned := true }
  | .tick :: rs, l => keepAliveFrom fn rs { l with state := fn l.state, calls := l.calls + 1 }

/-- The function `keepAlive(ctx, d, fn)`: `time.NewTicker(d)`, which faults
on a period that is not positive, then the loop. -/
def keepAlive {σ : Type} (d : Duration) (fn : σ → σ) (rs : List Recv) (s : σ) :
    Outcome (Loop σ) :=
  if d ≤ 0 then .fault
  else .ret (keepAliveFrom fn rs { state := s, calls := 0, returned := false })

/-- The timing of one run of `keepAlive`, in nanoseconds from its start:
the period `d` of the ticker, the time `t` at which the context is
cancelled, the time `dur i` that call number `i` of the probe takes, and
`pickTick i`, the case a `select` takes after `i` calls of the probe when a
tick and `<-ctx.Done()` are both ready (`true` for the tick). -/
structure Timing where
  d : Nat
  t : Nat
  dur : Nat → Nat
  pickTick : Nat → Bool

/-- The ticker and the loop when the loop reaches its `select`: the time,
the time at which the ticker fires next, whether the one-slot channel
`ticker.C` holds a tick, and the number of calls of the probe made. -/
structure Ticker where
  now : Nat
  nextTick : Nat
  pending : Bool
  calls : Nat
  deriving DecidableEq, Repr

/-- The start of `keepAlive`: `time.NewTicker(d)` fires first at time `d`. -/
def Timing.start (T : Timing) : Ticker :=
  { now := 0, nextTick := T.d, pending := false, calls := 0 }

/-- A `select` with no case ready blocks until the first of the next tick
and the cancellation; a `select` with a case ready does not wait. -/
def Timing.arrive (T : Timing) (c : Ticker) : Ticker :=
  if c.pending || decide (T.t ≤ c.now) then c
  else if c.nextTick ≤ T.t then
    { c with now := c.nextTick, pending := true, nextTick := c.nextTick + T.d }
  else { c with now := T.t }

/-- The `select` took the tick at `c.now` and the probe ran for
`dur c.calls`: the ticker went on firing meanwhile, the first of these ticks
staying in `ticker.C` and the others being dropped. -/
def Timing.afterProbe (T : Timing) (c : Ticker) : Ticker :=
  if c.nextTick ≤ c.now + T.dur c.calls then
    { now := c.now + T.dur c.calls
      nextTick := c.nextTick + ((c.now + T.dur c.calls - c.nextTick) / T.d + 1) * T.d
      pending := true
      calls := c.calls + 1 }
  else
    { now := c.now + T.dur c.calls, nextTick := c.nextTick, pending := false,
      calls := c.calls + 1 }

/-- What the successive `select`s of `keepAlive` take, and when, at most
`fuel` of them: with only a tick ready the tick, with only the cancellation
ready `<-ctx.Done()`, with both ready the case `pickTick` names. The list
ends with the `<-ctx.Done()` on which `keepAlive` returns. -/
def Timing.selects (T : Timing) : Nat → Ticker → List (Recv × Nat)
  | 0, _ => []
  | fuel + 1, c =>
    if (T.arrive c).pending
        && (!decide (T.t ≤ (T.arrive c).now) || T.pickTick (T.arrive c).calls) then
      (Recv.tick, (T.arrive c).now) :: T.selects fuel (T.afterProbe (T.arrive c))
    else [(Recv.done, (T.arrive c).now)]

/-- A run of `keepAlive(ctx, d, fn)` under a timing. -/
def Timing.keepAlive {σ : Type} (T : Timing) (fn : σ → σ) (fuel : Nat) (s : σ) :
    Outcome (Loop σ) :=
  Upterm.keepAlive (T.d : Duration) fn ((T.selects fuel T.start).map Prod.fst) s

/-- The number of `SendRequest` calls recorded in a trace. -/
def sendRequests : List Event → Nat
  | [] => 0
  | .sendRequest _ _ _ _ _ :: tr => sendRequests tr + 1
  | _ :: tr => sendRequests tr

/-- The number of `go keepAlive` statements recorded in a trace. -/
def keepAlivesSpawned : List Event → Nat
  | [] => 0
  | .goKeepAlive _ _ :: tr => keepAlivesSpawned tr + 1
  | _ :: tr => keepAlivesSpawned tr

/-- Whether a trace records a `Close()` of the listener `l`. -/
def closedListener (l : Listener) : List Event → Bool
  | [] => false
  | .listenerClose l1 _ :: tr => l1 == l || closedListener l tr
  | _ :: tr => closedListener l tr

/-- Whether a trace records a `Close()` of the session `cl`. -/
def closedClient (cl : Client) : List Event → Bool
  | [] => false
  | .clientClose c1 _ :: tr => c1 == cl || closedClient cl tr
  | _ :: tr => closedClient cl tr

/-- A caller running one method after another on the same tunnel: the
second runs when the first returned, and a fault ends the program. -/
def Run.andThen {α β : Type} (r : Run α) (next : ReverseTunnel → List Event → Run β) :
    Run β :=
  match r.result with
  | .ret _ => next r.tunnel r.trace
  | .fault => { tunnel := r.tunnel, trace := r.trace, result := .fault }

/-! ## Sample values -/

/-- A relay endpoint reached over a secure web socket. -/
def relayWS : URL :=
  { Scheme := "wss", Opaque := "", User := none, Host := "uptermd.upterm.dev:443",
    Path := "", RawPath := "", ForceQuery := false, RawQuery := "", Fragment := "",
    RawFragment := "" }

/-- A relay endpoint reached over a raw socket. -/
def relayTCP : URL :=
  { relayWS with Scheme := "ssh", Host := "uptermd.upterm.dev:22" }

/-- A web-socket endpoint whose host holds a space, as the value
`&url.URL{Scheme: "wss", Host: "bad host"}`. -/
def badHostWS : URL :=
  { relayWS with Host := "bad host" }

/-- The escaping of a host by `(*url.URL).String`, for the one character the
samples use: a space becomes `%20`. -/
def escapeHost (host : String) : String :=
  String.mk (host.data.flatMap fun ch => if ch = Char.ofNat 32 then "%20".data else [ch])

/-- Probes of one millisecond under a period of 50ms and a cancellation at
120ms. -/
def promptTiming (pick : Bool) : Timing :=
  { d := 50000000, t := 120000000, dur := fun _ => 1000000, pickTick := fun _ => pick }

/-- A first probe of 80ms, the later ones immediate, under a period of 50ms
and a cancellation at 120ms: the first probe is called at 50ms and returns
at 130ms, the tick of 100ms waiting in `ticker.C`. -/
def slowTiming (pick : Bool) : Timing :=
  { d := 50000000, t := 120000000, dur := fun i => if i = 0 then 80000000 else 0,
    pickTick := fun _ => pick }

/-- A tunnel on which no method has run yet. -/
def freshTunnel (host : URL) : ReverseTunnel :=
  { Client := none, Host := host, SessionID := "session-1", Signers := [⟨1⟩, ⟨2⟩],
    KeepAliveDuration := 50000000, Logger := ⟨0⟩, ln := none }

/-- A sample environment: the local user is `owen`, the dial answers
`dialed`, the reverse-listener request answers `bound`, the server-info
request answers `reply`; keepalive requests fail and succeed in turn; a
second `Close()` of a listener or of a session reports an error; the JSON
texts `{}` and `null` parse; `String()` writes the scheme and the escaped
host, and `url.Parse` reads the relay endpoint back and rejects an escaped
space in a host. -/
def sampleEnv (dialed : Answer Client) (bound : Answer Listener) (reply : Reply) : Env where
  userCurrent := .value { Username := "owen" }
  encodeIdentifier := fun id => .value (id.Id ++ ":host")
  urlString := fun u => u.Scheme ++ "://" ++ escapeHost u.Host
  urlParse := fun s =>
    if s = "wss://uptermd.upterm.dev:443" then .value relayWS
    else if stringsContains s "%20" then
      .failed (.foreign ("parse \"" ++ s ++ "\": invalid URL escape \"%20\""))
    else .failed (.foreign ("parse \"" ++ s ++ "\": invalid URL"))
  jsonUnmarshal := fun body =>
    if body = [123, 125] then .value (some { fields := [] })
    else if body = [110, 117, 108, 108] then .value none
    else .failed (.foreign "invalid character")
  HostSSHClientVersion := "SSH-2.0-upterm-host-client"
  OpenSSHKeepAliveRequestType := "keepalive@openssh.com"
  ServerServerInfoRequestType := "upterm-server-info@upterm.dev"
  wsNewSSHClient := fun _ _ _ _ => dialed
  sshDial := fun _ _ _ _ => dialed
  listen := fun _ _ _ _ => bound
  sendRequest := fun tr _ name _ _ =>
    if name = "keepalive@openssh.com" then
      if sendRequests tr % 2 = 0 then .failed (.foreign "EOF") else .replied true []
    else reply
  listenerClose := fun tr l =>
    if closedListener l tr then some (.foreign "use of closed network connection") else none
  clientClose := fun tr cl =>
    if closedClient cl tr then some (.foreign "use of closed network connection") else none

/-- The sample environment in which every step of `Establish` succeeds. -/
def relayEnv : Env :=
  sampleEnv (.value ⟨7⟩) (.value ⟨9⟩) (.replied true [123, 125])

/-! ## Facts about the string search -/

theorem containsChars_iff (substr s : List Char) :
    containsChars substr s = true ↔ substr <:+: s := by
  induction s with
  | nil =>
    simp [containsChars, List.isPrefixOf_iff_prefix]
  | cons c s ih =>
    simp only [containsChars, Bool.or_eq_true, ih, List.isPrefixOf_iff_prefix]
    constructor
    · rintro (h | h)
      · exact h.isInfix
      · exact h.trans (List.suffix_cons c s).isInfix
    · intro h
      rcases List.infix_cons_iff.mp h with h | h
      · exact Or.inl h
      · exact Or.inr h

theorem stringsContains_iff (s substr : String) :
    stringsContains s substr = true ↔ substr.data <:+: s.data :=
  containsChars_iff _ _

theorem stringsContains_self (s : String) : stringsContains s s = true :=
  (stringsContains_iff s s).mpr (List.infix_refl _)

/-! ## The error classifier -/

/-- C1: when the message of `e` is exactly the public-key rejection
signature, `sshDialError h e` is the `PermissionDeniedError` made of `h` and
`e`: it unwraps to `e` and its message is `h` followed by
`": Permission denied (publickey)."`. -/
theorem sshDialError_exact_signature (h : String) (e : GoError)
    (hmsg : e.Error = publickeyAuthError) :
    sshDialError h e = .permissionDenied h e ∧
    (sshDialError h e).isPermissionDenied = true ∧
    (sshDialError h e).Unwrap = some e ∧
    (sshDialError h e).Error = h ++ ": Permission denied (publickey)." := by
  have hc : stringsContains e.Error publickeyAuthError = true := by
    rw [hmsg]; exact stringsContains_self _
  simp [sshDialError, hc, GoError.isPermissionDenied, GoError.Unwrap, GoError.Error]

theorem sshDialError_exact_signature_witness :
    (GoError.foreign "ssh: unable to authenticate, attempted methods [none]").Error
        = publickeyAuthError ∧
    sshDialError "ssh://uptermd.upterm.dev:22"
        (.foreign "ssh: unable to authenticate, attempted methods [none]")
      = .permissionDenied "ssh://uptermd.upterm.dev:22"
          (.foreign "ssh: unable to authenticate, attempted methods [none]") :=
  ⟨rfl, (sshDialError_exact_signature "ssh://uptermd.upterm.dev:22"
    (.foreign "ssh: unable to authenticate, attempted methods [none]") rfl).1⟩

/-- C2 (as stated, refuted): a message that is not exactly the signature but
contains it after a prefix and before a suffix is classified as
`PermissionDeniedError`, not wrapped generically. -/
theorem sshDialError_prefixed_signature_counterexample :
    ((GoError.foreign
        "ssh: handshake failed: ssh: unable to authenticate, attempted methods [none], no supported methods remain").Error
        == publickeyAuthError) = false ∧
    sshDialError "ssh://uptermd.upterm.dev:22"
        (.foreign
          "ssh: handshake failed: ssh: unable to authenticate, attempted methods [none], no supported methods remain")
      = .permissionDenied "ssh://uptermd.upterm.dev:22"
          (.foreign
            "ssh: handshake failed: ssh: unable to authenticate, attempted methods [none], no supported methods remain") := by
  decide

/-- C2 (amended): `sshDialError h e` is the generic wrapped error
`"ssh dial error: " + e`, and not a `PermissionDeniedError`, exactly for the
errors `e` whose message does not contain the signature as a substring;
every message that contains the signature, also after a prefix or before a
suffix, yields the `PermissionDeniedError` of `h` and `e`. -/
theorem sshDialError_classifies_by_substring (h : String) (e : GoError) :
    (¬ publickeyAuthError.data <:+: e.Error.data →
      sshDialError h e = .wrapError "ssh dial error: " e ∧
      (sshDialError h e).isPermissionDenied = false) ∧
    (publickeyAuthError.data <:+: e.Error.data →
      sshDialError h e = .permissionDenied h e) ∧
    ((sshDialError h e).isPermissionDenied = true ↔
      publickeyAuthError.data <:+: e.Error.data) := by
  by_cases hc : publickeyAuthError.data <:+: e.Error.data
  · have hb : stringsContains e.Error publickeyAuthError = true :=
      (stringsContains_iff _ _).mpr hc
    simp [sshDialError, hb, hc, GoError.isPermissionDenied]
  · have hb : stringsContains e.Error publickeyAuthError = false := by
      rw [← Bool.not_eq_true, stringsContains_iff]; exact hc
    simp [sshDialError, hb, hc, GoError.isPermissionDenied]

theorem sshDialError_classifies_by_substring_witness :
    sshDialError "ssh://uptermd.upterm.dev:22"
        (.foreign "dial tcp 127.0.0.1:22: connect: connection refused")
      = .wrapError "ssh dial error: "
          (.foreign "dial tcp 127.0.0.1:22: connect: connection refused") :=
  ((sshDialError_classifies_by_substring "ssh://uptermd.upterm.dev:22"
    (.foreign "dial tcp 127.0.0.1:22: connect: connection refused")).1
    (by rw [← stringsContains_iff]; decide)).1

/-- C3 (as stated, refuted): for a refused connection the generic error
wraps the cause, and its message does not contain the endpoint. -/
theorem sshDialError_generic_endpoint_counterexample :
    (sshDialError "ssh://uptermd.upterm.dev:22"
        (.foreign "dial tcp 127.0.0.1:22: connect: connection refused")).isPermissionDenied
      = false ∧
    (sshDialError "ssh://uptermd.upterm.dev:22"
        (.foreign "dial tcp 127.0.0.1:22: connect: connection refused")).Unwrap
      = some (.foreign "dial tcp 127.0.0.1:22: connect: connection refused") ∧
    (sshDialError "ssh://uptermd.upterm.dev:22"
        (.foreign "dial tcp 127.0.0.1:22: connect: connection refused")).Error
      = "ssh dial error: dial tcp 127.0.0.1:22: connect: connection refused" ∧
    stringsContains
        (sshDialError "ssh://uptermd.upterm.dev:22"
          (.foreign "dial tcp 127.0.0.1:22: connect: connection refused")).Error
        "ssh://uptermd.upterm.dev:22"
      = false := by
  decide

/-- C3 (amended): when `sshDialError h e` is not a `PermissionDeniedError`,
it wraps `e` (`Unwrap()` returns `e`) and its message is
`"ssh dial error: "` followed by the message of `e`; the endpoint takes no
part in it: the same error is returned for every endpoint. -/
theorem sshDialError_generic (h : String) (e : GoError)
    (hgen : (sshDialError h e).isPermissionDenied = false) :
    sshDialError h e = .wrapError "ssh dial error: " e ∧
    (sshDialError h e).Unwrap = some e ∧
    (sshDialError h e).Error = "ssh dial error: " ++ e.Error ∧
    ∀ h1 : String, sshDialError h1 e = sshDialError h e := by
  by_cases hb : stringsContains e.Error publickeyAuthError = true
  · simp [sshDialError, hb, GoError.isPermissionDenied] at hgen
  · simp [sshDialError, hb, GoError.Unwrap, GoError.Error]

theorem sshDialError_generic_witness :
    (sshDialError "ssh://uptermd.upterm.dev:22"
        (.foreign "dial tcp 127.0.0.1:22: connect: connection refused")).Error
      = "ssh dial error: " ++
          (GoError.foreign "dial tcp 127.0.0.1:22: connect: connection refused").Error :=
  (sshDialError_generic "ssh://uptermd.upterm.dev:22"
    (.foreign "dial tcp 127.0.0.1:22: connect: connection refused") (by decide)).2.2.1

/-! ## Facts about traces and about `Establish` -/

theorem closedListener_append (l : Listener) (tr tr1 : List Event) :
    closedListener l (tr ++ tr1) = (closedListener l tr || closedListener l tr1) := by
  induction tr with
  | nil => simp [closedListener]
  | cons ev tr ih => cases ev <;> simp [closedListener, ih, Bool.or_assoc]

theorem closedClient_append (cl : Client) (tr tr1 : List Event) :
    closedClient cl (tr ++ tr1) = (closedClient cl tr || closedClient cl tr1) := by
  induction tr with
  | nil => simp [closedClient]
  | cons ev tr ih => cases ev <;> simp [closedClient, ih, Bool.or_assoc]

theorem sendRequests_append (tr tr1 : List Event) :
    sendRequests (tr ++ tr1) = sendRequests tr + sendRequests tr1 := by
  induction tr with
  | nil => simp [sendRequests]
  | cons ev tr ih => cases ev <;> simp [sendRequests, ih]; omega

theorem keepAlivesSpawned_append (tr tr1 : List Event) :
    keepAlivesSpawned (tr ++ tr1) = keepAlivesSpawned tr + keepAlivesSpawned tr1 := by
  induction tr with
  | nil => simp [keepAlivesSpawned]
  | cons ev tr ih => cases ev <;> simp [keepAlivesSpawned, ih]; omega

theorem Close_of_set (env : Env) (c : ReverseTunnel) (tr : List Event) (l : Listener)
    (cl : Client) (hl : c.ln = some l) (hc : c.Client = some cl) :
    c.Close env tr =
      { tunnel := c
        trace := tr ++ [.listenerClose l (env.listenerClose tr l),
          .clientClose cl (env.clientClose (tr ++ [.listenerClose l (env.listenerClose tr l)]) cl)]
        result := .ret () } := by
  simp [ReverseTunnel.Close, hl, hc]

theorem serverInfo_tunnel (env : Env) (c : ReverseTunnel) (tr : List Event) :
    (c.serverInfo env tr).tunnel = c := by
  unfold ReverseTunnel.serverInfo
  split
  · rfl
  · dsimp only
    split
    · rfl
    · split
      · rfl
      · split <;> rfl

theorem serverInfo_trace (env : Env) (c : ReverseTunnel) (tr : List Event) (cl : Client)
    (hc : c.Client = some cl) :
    (c.serverInfo env tr).trace
      = tr ++ [.sendRequest cl env.ServerServerInfoRequestType true none
          (env.sendRequest tr cl env.ServerServerInfoRequestType true none)] := by
  unfold ReverseTunnel.serverInfo
  simp only [hc]
  cases env.sendRequest tr cl env.ServerServerInfoRequestType true none with
  | failed err => rfl
  | replied ok body =>
    cases ok with
    | false => rfl
    | true =>
      dsimp only
      cases env.jsonUnmarshal body <;> rfl

theorem dial_trace (env : Env) (c : ReverseTunnel) (encodedID : String) (tr tr1 : List Event)
    (res : Answer Client) (hdial : c.dial env encodedID tr = .ret (res, tr1)) :
    (tr1 = tr ++ [.wsNewSSHClient
        { (match env.urlParse (env.urlString c.Host) with
            | .value u => u
            | .failed _ => c.Host) with User := some (urlUserPassword encodedID "") }
        (c.clientConfig env encodedID) false res] ∧ isWSScheme c.Host.Scheme = true) ∨
    (tr1 = tr ++ [.sshDial "tcp" c.Host.Host (c.clientConfig env encodedID) res] ∧
      isWSScheme c.Host.Scheme = false) := by
  unfold ReverseTunnel.dial at hdial
  by_cases hws : isWSScheme c.Host.Scheme = true
  · left
    simp only [hws, if_true] at hdial
    cases hp : env.urlParse (env.urlString c.Host) with
    | failed err => simp [hp] at hdial
    | value u =>
      simp only [hp, Outcome.ret.injEq, Prod.mk.injEq] at hdial
      exact ⟨by rw [← hdial.2, ← hdial.1], hws⟩
  · right
    simp only [hws] at hdial
    simp only [Bool.false_eq_true, if_false, Outcome.ret.injEq, Prod.mk.injEq] at hdial
    exact ⟨by rw [← hdial.2, ← hdial.1], by simpa using hws⟩

/-- After a run of `Establish` that returned a nil error, the session and
the listener of the tunnel are both set. -/
theorem Establish_ok_fields (env : Env) (c : ReverseTunnel) (tr : List Event)
    (info : Option ServerInfo) (hok : (c.Establish env tr).result = .ret (info, none)) :
    ∃ l cl, (c.Establish env tr).tunnel.ln = some l ∧
      (c.Establish env tr).tunnel.Client = some cl := by
  unfold ReverseTunnel.Establish at hok ⊢
  cases hu : env.userCurrent with
  | failed err => simp [hu] at hok
  | value user =>
    simp only [hu] at hok ⊢
    cases hi : env.encodeIdentifier { Id := user.Username, Type_ := .HOST } with
    | failed err => simp [hi] at hok
    | value encodedID =>
      simp only [hi] at hok ⊢
      cases hd : c.dial env encodedID tr with
      | fault => simp [hd] at hok
      | ret p =>
        obtain ⟨res, tr1⟩ := p
        cases res with
        | failed err => simp [hd] at hok
        | value cl =>
          simp only [hd] at hok ⊢
          cases hb : env.listen tr1 cl "unix" c.SessionID with
          | failed err => simp [hb] at hok
          | value l =>
            simp only [hb, serverInfo_tunnel]
            exact ⟨l, cl, rfl, rfl⟩

/-- No run of `Establish` changes the field `Host` of the tunnel. -/
theorem Establish_Host (env : Env) (c : ReverseTunnel) (tr : List Event) :
    (c.Establish env tr).tunnel.Host = c.Host := by
  unfold ReverseTunnel.Establish
  cases hu : env.userCurrent with
  | failed err => rfl
  | value user =>
    dsimp only
    cases hi : env.encodeIdentifier { Id := user.Username, Type_ := .HOST } with
    | failed err => rfl
    | value encodedID =>
      dsimp only
      cases hd : c.dial env encodedID tr with
      | fault => rfl
      | ret p =>
        obtain ⟨res, tr1⟩ := p
        cases res with
        | failed err => rfl
        | value cl =>
          dsimp only
          cases hb : env.listen tr1 cl "unix" c.SessionID with
          | failed err => rfl
          | value l => simp only [serverInfo_tunnel]

/-! ## Closing the tunnel -/

/-- C4 (as stated, refuted): `Close()` faults on a tunnel that was never
established, and it faults after an `Establish` that failed at the
reverse-listener step, the session then staying open. -/
theorem Close_before_established_counterexample :
    ((freshTunnel relayTCP).Close relayEnv []).result = .fault ∧
    ((freshTunnel relayTCP).Establish
        (sampleEnv (.value ⟨7⟩) (.failed (.foreign "ssh: request denied by peer"))
          (.replied true [123, 125])) []).result
      = .ret (none, some (.wrapError "unable to create reverse tunnel: "
          (.foreign "ssh: request denied by peer"))) ∧
    (((freshTunnel relayTCP).Establish
        (sampleEnv (.value ⟨7⟩) (.failed (.foreign "ssh: request denied by peer"))
          (.replied true [123, 125])) []).andThen
      (ReverseTunnel.Close relayEnv)).result = .fault ∧
    closedClient ⟨7⟩
      (((freshTunnel relayTCP).Establish
        (sampleEnv (.value ⟨7⟩) (.failed (.foreign "ssh: request denied by peer"))
          (.replied true [123, 125])) []).andThen
      (ReverseTunnel.Close relayEnv)).trace = false := by
  decide

/-- C4 (amended): `Close()` returns without faulting exactly when the
listener and the session of the tunnel are both set; this is the case after
every run of `Establish` that returned a nil error. When the listener is
unset, `Close()` faults before it has closed anything. -/
theorem Close_safe_iff_set (env : Env) (c : ReverseTunnel) (tr : List Event)
    (info : Option ServerInfo) :
    ((c.Close env tr).result = .ret () ↔ (c.ln.isSome = true ∧ c.Client.isSome = true)) ∧
    ((c.Establish env tr).result = .ret (info, none) →
      ((c.Establish env tr).andThen (ReverseTunnel.Close env)).result = .ret ()) ∧
    (c.ln = none → (c.Close env tr).result = .fault ∧ (c.Close env tr).trace = tr) := by
  refine ⟨?_, ?_, ?_⟩
  · cases hl : c.ln with
    | none => simp [ReverseTunnel.Close, hl]
    | some l =>
      cases hc : c.Client with
      | none => simp [ReverseTunnel.Close, hl, hc]
      | some cl => simp [ReverseTunnel.Close, hl, hc]
  · intro hok
    obtain ⟨l, cl, hl, hc⟩ := Establish_ok_fields env c tr info hok
    simp [Run.andThen, hok, Close_of_set env _ _ l cl hl hc]
  · intro hl
    simp [ReverseTunnel.Close, hl]

theorem Close_safe_iff_set_witness :
    ((freshTunnel relayWS).Establish relayEnv []).result = .ret (some ⟨[]⟩, none) ∧
    (((freshTunnel relayWS).Establish relayEnv []).andThen
      (ReverseTunnel.Close relayEnv)).result = .ret () :=
  ⟨by decide,
    (Close_safe_iff_set relayEnv (freshTunnel relayWS) [] (some ⟨[]⟩)).2.1 (by decide)⟩

/-- C5: after a run of `Establish` that returned a nil error, two calls of
`Close()` both return; whatever errors the listener and the session report
are dropped; the second call leaves the tunnel as the first left it, and
the same listeners and sessions closed, the listener and the session of the
tunnel among them. -/
theorem Close_twice (env : Env) (c : ReverseTunnel) (tr : List Event)
    (info : Option ServerInfo) (hok : (c.Establish env tr).result = .ret (info, none)) :
    ((c.Establish env tr).andThen (ReverseTunnel.Close env)).result = .ret () ∧
    (((c.Establish env tr).andThen (ReverseTunnel.Close env)).andThen
      (ReverseTunnel.Close env)).result = .ret () ∧
    (((c.Establish env tr).andThen (ReverseTunnel.Close env)).andThen
      (ReverseTunnel.Close env)).tunnel
      = ((c.Establish env tr).andThen (ReverseTunnel.Close env)).tunnel ∧
    (∀ l, closedListener l (((c.Establish env tr).andThen (ReverseTunnel.Close env)).andThen
        (ReverseTunnel.Close env)).trace
      = closedListener l ((c.Establish env tr).andThen (ReverseTunnel.Close env)).trace) ∧
    (∀ cl, closedClient cl (((c.Establish env tr).andThen (ReverseTunnel.Close env)).andThen
        (ReverseTunnel.Close env)).trace
      = closedClient cl ((c.Establish env tr).andThen (ReverseTunnel.Close env)).trace) ∧
    ∃ l cl, ((c.Establish env tr).andThen (ReverseTunnel.Close env)).tunnel.ln = some l ∧
      ((c.Establish env tr).andThen (ReverseTunnel.Close env)).tunnel.Client = some cl ∧
      closedListener l ((c.Establish env tr).andThen (ReverseTunnel.Close env)).trace = true ∧
      closedClient cl ((c.Establish env tr).andThen (ReverseTunnel.Close env)).trace = true := by
  obtain ⟨l, cl, hl, hc⟩ := Establish_ok_fields env c tr info hok
  have h1 : (c.Establish env tr).andThen (ReverseTunnel.Close env)
      = (c.Establish env tr).tunnel.Close env (c.Establish env tr).trace := by
    simp [Run.andThen, hok]
  rw [h1, Close_of_set env _ _ l cl hl hc]
  simp only [Run.andThen, Close_of_set env _ _ l cl hl hc]
  refine ⟨trivial, trivial, trivial, ?_, ?_, l, cl, hl, hc, ?_, ?_⟩
  · intro l1
    simp only [closedListener_append, closedListener]
    cases closedListener l1 (c.Establish env tr).trace <;> cases (l == l1) <;> rfl
  · intro c1
    simp only [closedClient_append, closedClient]
    cases closedClient c1 (c.Establish env tr).trace <;> cases (cl == c1) <;> rfl
  · simp [closedListener_append, closedListener]
  · simp [closedClient_append, closedClient]

theorem Close_twice_witness :
    ((freshTunnel relayTCP).Establish relayEnv []).result = .ret (some ⟨[]⟩, none) ∧
    ((((freshTunnel relayTCP).Establish relayEnv []).andThen
      (ReverseTunnel.Close relayEnv)).andThen (ReverseTunnel.Close relayEnv)).result
      = .ret () :=
  ⟨by decide, (Close_twice relayEnv (freshTunnel relayTCP) [] (some ⟨[]⟩) (by decide)).2.1⟩

/-- C6: on a tunnel whose listener and session are set, as after every
successful `Establish`, one call of `Close()` makes exactly two calls, in
this order: `Close()` of the listener, then `Close()` of the session; the
session is closed whatever the listener reported. -/
theorem Close_listener_before_session (env : Env) (c : ReverseTunnel) (tr : List Event)
    (l : Listener) (cl : Client) (hl : c.ln = some l) (hc : c.Client = some cl) :
    (c.Close env tr).trace =
      tr ++ [.listenerClose l (env.listenerClose tr l),
        .clientClose cl
          (env.clientClose (tr ++ [.listenerClose l (env.listenerClose tr l)]) cl)] ∧
    (c.Close env tr).result = .ret () ∧
    (c.Close env tr).tunnel = c := by
  rw [Close_of_set env c tr l cl hl hc]
  exact ⟨rfl, rfl, rfl⟩

theorem Close_listener_before_session_witness :
    (({ freshTunnel relayTCP with Client := some ⟨7⟩, ln := some ⟨9⟩ } :
        ReverseTunnel).Close relayEnv [.listenerClose ⟨9⟩ none]).trace
      = [.listenerClose ⟨9⟩ none,
          .listenerClose ⟨9⟩ (some (.foreign "use of closed network connection")),
          .clientClose ⟨7⟩ none] :=
  (Close_listener_before_session relayEnv
    { freshTunnel relayTCP with Client := some ⟨7⟩, ln := some ⟨9⟩ }
    [.listenerClose ⟨9⟩ none] ⟨9⟩ ⟨7⟩ rfl rfl).1

/-! ## Establishing the tunnel -/

theorem Establish_of_dial (env : Env) (c : ReverseTunnel) (tr tr1 : List Event) (user : User)
    (encodedID : String) (cl : Client)
    (hu : env.userCurrent = .value user)
    (hi : env.encodeIdentifier { Id := user.Username, Type_ := .HOST } = .value encodedID)
    (hdial : c.dial env encodedID tr = .ret (.value cl, tr1)) :
    c.Establish env tr =
      match env.listen tr1 cl "unix" c.SessionID with
      | .failed err =>
        { tunnel := { c with Client := some cl, ln := none }
          trace := tr1 ++ [.listen cl "unix" c.SessionID (.failed err)]
          result := .ret (none, some (.wrapError "unable to create reverse tunnel: " err)) }
      | .value l =>
        ReverseTunnel.serverInfo env { c with Client := some cl, ln := some l }
          (tr1 ++ [.listen cl "unix" c.SessionID (.value l), .goKeepAlive c.KeepAliveDuration cl]) := by
  unfold ReverseTunnel.Establish
  simp only [hu, hi, hdial]
  cases hb : env.listen tr1 cl "unix" c.SessionID <;> simp

/-- C7: when the session opens and the reverse-listener request bound to
`SessionID` fails with `e`, `Establish` returns a nil `ServerInfo` and the
error `"unable to create reverse tunnel: " + e`, which unwraps to `e`; the
session stays in the tunnel and is not closed, no keepalive loop is started
and no request is sent: the dial and the listener request are the only
calls made. -/
theorem Establish_listener_failure (env : Env) (c : ReverseTunnel) (tr tr1 : List Event)
    (user : User) (encodedID : String) (cl : Client) (e : GoError)
    (hu : env.userCurrent = .value user)
    (hi : env.encodeIdentifier { Id := user.Username, Type_ := .HOST } = .value encodedID)
    (hdial : c.dial env encodedID tr = .ret (.value cl, tr1))
    (hlisten : env.listen tr1 cl "unix" c.SessionID = .failed e) :
    (c.Establish env tr).result
      = .ret (none, some (.wrapError "unable to create reverse tunnel: " e)) ∧
    (GoError.wrapError "unable to create reverse tunnel: " e).Unwrap = some e ∧
    (GoError.wrapError "unable to create reverse tunnel: " e).Error
      = "unable to create reverse tunnel: " ++ e.Error ∧
    (c.Establish env tr).tunnel.Client = some cl ∧
    (c.Establish env tr).tunnel.ln = none ∧
    (c.Establish env tr).trace = tr1 ++ [.listen cl "unix" c.SessionID (.failed e)] ∧
    (∀ c1, closedClient c1 (c.Establish env tr).trace = closedClient c1 tr) ∧
    keepAlivesSpawned (c.Establish env tr).trace = keepAlivesSpawned tr ∧
    sendRequests (c.Establish env tr).trace = sendRequests tr := by
  have hE := Establish_of_dial env c tr tr1 user encodedID cl hu hi hdial
  simp only [hlisten] at hE
  rw [hE]
  refine ⟨rfl, rfl, rfl, rfl, rfl, rfl, ?_, ?_, ?_⟩
  · intro c1
    rcases dial_trace env c encodedID tr tr1 _ hdial with ⟨h, _⟩ | ⟨h, _⟩ <;>
      simp [h, closedClient_append, closedClient]
  · rcases dial_trace env c encodedID tr tr1 _ hdial with ⟨h, _⟩ | ⟨h, _⟩ <;>
      simp [h, keepAlivesSpawned_append, keepAlivesSpawned]
  · rcases dial_trace env c encodedID tr tr1 _ hdial with ⟨h, _⟩ | ⟨h, _⟩ <;>
      simp [h, sendRequests_append, sendRequests]

theorem Establish_listener_failure_witness :
    ((freshTunnel relayWS).Establish
        (sampleEnv (.value ⟨7⟩) (.failed (.foreign "ssh: request denied by peer"))
          (.replied true [123, 125])) []).result
      = .ret (none, some (.wrapError "unable to create reverse tunnel: "
          (.foreign "ssh: request denied by peer"))) :=
  (Establish_listener_failure
    (sampleEnv (.value ⟨7⟩) (.failed (.foreign "ssh: request denied by peer"))
      (.replied true [123, 125]))
    (freshTunnel relayWS) []
    [.wsNewSSHClient
      { relayWS with User := some (urlUserPassword "owen:host" "") }
      ((freshTunnel relayWS).clientConfig
        (sampleEnv (.value ⟨7⟩) (.failed (.foreign "ssh: request denied by peer"))
          (.replied true [123, 125])) "owen:host")
      false (.value ⟨7⟩)]
    ⟨"owen"⟩ "owen:host" ⟨7⟩ (.foreign "ssh: request denied by peer")
    rfl (by decide) (by decide) rfl).1

/-! ## Fetching the server info -/

/-- C8: on an open session `serverInfo` sends one server-info request, with
a reply wanted and no payload, and makes no other call, so nothing is
retried and the session is not closed. A negative acknowledgment gives no
`ServerInfo` and the error `"error fetching server info"`; a body that does
not parse gives no `ServerInfo` and the error
`"error unmarshaling server info: "` wrapping the parse error; the two
errors differ in message and in what they unwrap to. A nil error is
returned only when the request was acknowledged and its body parsed, and the
value returned is then the parsed one. -/
theorem serverInfo_contract (env : Env) (c : ReverseTunnel) (tr : List Event) (cl : Client)
    (hc : c.Client = some cl) :
    (c.serverInfo env tr).trace
      = tr ++ [.sendRequest cl env.ServerServerInfoRequestType true none
          (env.sendRequest tr cl env.ServerServerInfoRequestType true none)] ∧
    (c.serverInfo env tr).tunnel = c ∧
    (∀ c1, closedClient c1 (c.serverInfo env tr).trace = closedClient c1 tr) ∧
    sendRequests (c.serverInfo env tr).trace = sendRequests tr + 1 ∧
    (∀ err, env.sendRequest tr cl env.ServerServerInfoRequestType true none = .failed err →
      (c.serverInfo env tr).result
        = .ret (none, some (.wrapError "error fetching server info: " err))) ∧
    (∀ body, env.sendRequest tr cl env.ServerServerInfoRequestType true none
        = .replied false body →
      (c.serverInfo env tr).result
        = .ret (none, some (.errorString "error fetching server info"))) ∧
    (∀ body pe, env.sendRequest tr cl env.ServerServerInfoRequestType true none
        = .replied true body →
      env.jsonUnmarshal body = .failed pe →
      (c.serverInfo env tr).result
        = .ret (none, some (.wrapError "error unmarshaling server info: " pe))) ∧
    (∀ pe, (GoError.errorString "error fetching server info").Error
        ≠ (GoError.wrapError "error unmarshaling server info: " pe).Error ∧
      (GoError.errorString "error fetching server info").Unwrap = none ∧
      (GoError.wrapError "error unmarshaling server info: " pe).Unwrap = some pe) ∧
    (∀ body info, env.sendRequest tr cl env.ServerServerInfoRequestType true none
        = .replied true body →
      env.jsonUnmarshal body = .value info →
      (c.serverInfo env tr).result = .ret (info, none)) ∧
    (∀ info, (c.serverInfo env tr).result = .ret (info, none) →
      ∃ body, env.sendRequest tr cl env.ServerServerInfoRequestType true none
          = .replied true body ∧
        env.jsonUnmarshal body = .value info) := by
  have htrace := serverInfo_trace env c tr cl hc
  refine ⟨htrace, serverInfo_tunnel env c tr, ?_, ?_, ?_, ?_, ?_, ?_, ?_, ?_⟩
  · intro c1
    simp [htrace, closedClient_append, closedClient]
  · simp [htrace, sendRequests_append, sendRequests]
  · intro err h
    simp [ReverseTunnel.serverInfo, hc, h]
  · intro body h
    simp [ReverseTunnel.serverInfo, hc, h]
  · intro body pe h hp
    simp [ReverseTunnel.serverInfo, hc, h, hp]
  · intro pe
    refine ⟨?_, rfl, rfl⟩
    intro h
    have h1 := congrArg (fun s : String => s.data.take 7) h
    simp [GoError.Error, String.data_append] at h1
  · intro body info h hp
    simp [ReverseTunnel.serverInfo, hc, h, hp]
  · intro info h
    unfold ReverseTunnel.serverInfo at h
    simp only [hc] at h
    cases hr : env.sendRequest tr cl env.ServerServerInfoRequestType true none with
    | failed err => simp [hr] at h
    | replied ok body =>
      cases ok with
      | false => simp [hr] at h
      | true =>
        cases hp : env.jsonUnmarshal body with
        | failed pe => simp [hr, hp] at h
        | value info1 =>
          simp [hr, hp] at h
          exact ⟨body, rfl, h ▸ hp⟩

theorem serverInfo_contract_witness :
    (({ freshTunnel relayTCP with Client := some ⟨7⟩, ln := some ⟨9⟩ } :
        ReverseTunnel).serverInfo
        (sampleEnv (.value ⟨7⟩) (.value ⟨9⟩) (.replied true [60, 104, 116, 109, 108, 62]))
        []).result
      = .ret (none, some (.wrapError "error unmarshaling server info: "
          (.foreign "invalid character"))) :=
  (serverInfo_contract
    (sampleEnv (.value ⟨7⟩) (.value ⟨9⟩) (.replied true [60, 104, 116, 109, 108, 62]))
    { freshTunnel relayTCP with Client := some ⟨7⟩, ln := some ⟨9⟩ } [] ⟨7⟩ rfl).2.2.2.2.2.2.1
    [60, 104, 116, 109, 108, 62] (.foreign "invalid character") rfl (by decide)

/-! ## Choosing the transport -/

/-- On the web-socket branch, when `url.Parse(c.Host.String())` returns an
error, `Establish` faults on the nil `u` before any call is made: no session
is opened and the tunnel is left as it was. -/
theorem Establish_fault_of_unparsed (env : Env) (c : ReverseTunnel) (tr : List Event)
    (user : User) (encodedID : String) (err : GoError)
    (hu : env.userCurrent = .value user)
    (hi : env.encodeIdentifier { Id := user.Username, Type_ := .HOST } = .value encodedID)
    (hws : isWSScheme c.Host.Scheme = true)
    (hp : env.urlParse (env.urlString c.Host) = .failed err) :
    c.Establish env tr = { tunnel := c, trace := tr, result := .fault } := by
  have hd : c.dial env encodedID tr = .fault := by
    simp [ReverseTunnel.dial, hws, hp]
  simp [ReverseTunnel.Establish, hu, hi, hd]

/-- C9 (defect of the code): for the web-socket endpoint
`&url.URL{Scheme: "wss", Host: "bad host"}`, `Host.String()` is
`wss://bad%20host`, which `url.Parse` rejects; the error is dropped, `u` is
nil, and `Establish` faults on `u.User = ...` without having dialled: no
session is opened over the web socket, and no credential reaches a clone. -/
theorem Establish_ws_unparsed_host_fault :
    isWSScheme badHostWS.Scheme = true ∧
    relayEnv.urlString badHostWS = "wss://bad%20host" ∧
    relayEnv.urlParse (relayEnv.urlString badHostWS)
      = .failed (.foreign "parse \"wss://bad%20host\": invalid URL escape \"%20\"") ∧
    (freshTunnel badHostWS).Establish relayEnv []
      = { tunnel := freshTunnel badHostWS, trace := [], result := .fault } := by
  decide

/-! ## The keepalive loop -/

theorem keepAliveFrom_ticks {σ : Type} (fn : σ → σ) (k : Nat) (rest : List Recv) (l : Loop σ) :
    keepAliveFrom fn (List.replicate k Recv.tick ++ rest) l
      = keepAliveFrom fn rest
          { l with state := fn^[k] l.state, calls := l.calls + k } := by
  induction k generalizing l with
  | zero => simp
  | succ k ih =>
    have h := ih { l with state := fn l.state, calls := l.calls + 1 }
    rw [List.replicate_succ, List.cons_append, Function.iterate_succ, Function.comp_apply]
    show keepAliveFrom fn (List.replicate k Recv.tick ++ rest)
        { l with state := fn l.state, calls := l.calls + 1 } = _
    rw [h, Nat.add_assoc, Nat.add_comm 1 k]

theorem sendRequests_pingServer (env : Env) (logger : Logger) (cl : Client) (tr : List Event) :
    sendRequests (pingServer env logger cl tr) = sendRequests tr + 1 := by
  unfold pingServer
  cases env.sendRequest tr cl env.OpenSSHKeepAliveRequestType true none <;>
    simp [sendRequests_append, sendRequests]

theorem sendRequests_iterate_pingServer (env : Env) (logger : Logger) (cl : Client) (k : Nat)
    (tr : List Event) :
    sendRequests ((pingServer env logger cl)^[k] tr) = sendRequests tr + k := by
  induction k generalizing tr with
  | zero => rfl
  | succ k ih =>
    rw [Function.iterate_succ, Function.comp_apply, ih, sendRequests_pingServer]
    omega

theorem selects_done_after_cancel (T : Timing) (fuel : Nat) (c : Ticker) (r : Nat)
    (h : (Recv.done, r) ∈ T.selects fuel c) : T.t ≤ r := by
  induction fuel generalizing c with
  | zero => simp [Timing.selects] at h
  | succ fuel ih =>
    unfold Timing.selects at h
    split at h
    · simp only [List.mem_cons, Prod.mk.injEq] at h
      rcases h with ⟨h, _⟩ | h
      · cases h
      · exact ih _ h
    · rename_i hcond
      simp only [List.mem_singleton, Prod.mk.injEq, true_and] at h
      subst h
      unfold Timing.arrive at hcond ⊢
      by_cases h1 : (c.pending || decide (T.t ≤ c.now)) = true
      · simp only [h1, if_true] at hcond ⊢
        by_cases h2 : T.t ≤ c.now
        · exact h2
        · simp [h2] at h1 hcond
          simp [h1] at hcond
      · simp only [h1] at hcond ⊢
        by_cases h3 : c.nextTick ≤ T.t
        · simp only [Bool.false_eq_true, if_false, h3, if_true] at hcond ⊢
          by_cases h4 : T.t ≤ c.nextTick
          · exact h4
          · simp [h4] at hcond
        · simp [h3]

theorem selects_prompt (T : Timing) (k : Nat) (hdur : ∀ i, T.dur i < T.d)
    (hk1 : k * T.d < T.t) (hk2 : T.t < k * T.d + T.d) (m : Nat) :
    ∀ (j : Nat) (c : Ticker) (fuel : Nat), j + m = k → c.calls = j → c.pending = false →
      c.nextTick = j * T.d + T.d → c.now < j * T.d + T.d → m + 1 ≤ fuel →
      ∃ r, T.t ≤ r ∧ r < T.t + T.d ∧
        T.selects fuel c
          = (List.range m).map (fun i => (Recv.tick, (j + i + 1) * T.d))
            ++ [(Recv.done, r)] := by
  induction m with
  | zero =>
    intro j c fuel hj hcalls hpend hnext hnow hfuel
    obtain ⟨fuel, rfl⟩ : ∃ f, fuel = f + 1 := ⟨fuel - 1, by omega⟩
    have hjk : j = k := by omega
    subst hjk
    by_cases hc : T.t ≤ c.now
    · refine ⟨c.now, hc, by omega, ?_⟩
      simp [Timing.selects, Timing.arrive, hpend, hc]
    · refine ⟨T.t, le_refl _, by omega, ?_⟩
      have h3 : ¬ c.nextTick ≤ T.t := by omega
      simp [Timing.selects, Timing.arrive, hpend, hc, h3]
  | succ m ih =>
    intro j c fuel hj hcalls hpend hnext hnow hfuel
    obtain ⟨fuel, rfl⟩ : ∃ f, fuel = f + 1 := ⟨fuel - 1, by omega⟩
    have hle : (j + 1) * T.d ≤ k * T.d := Nat.mul_le_mul_right _ (by omega)
    rw [Nat.succ_mul] at hle
    have hc : ¬ T.t ≤ c.now := by omega
    have h3 : c.nextTick ≤ T.t := by omega
    have h4 : ¬ T.t ≤ c.nextTick := by omega
    have hd := hdur j
    have harr : T.arrive c
        = { c with now := c.nextTick, pending := true, nextTick := c.nextTick + T.d } := by
      simp [Timing.arrive, hpend, hc, h3]
    have haft : T.afterProbe (T.arrive c)
        = { now := c.nextTick + T.dur j, nextTick := c.nextTick + T.d, pending := false,
            calls := j + 1 } := by
      rw [harr]
      have h5 : ¬ c.nextTick + T.d ≤ c.nextTick + T.dur j := by omega
      simp [Timing.afterProbe, hcalls, h5]
    obtain ⟨r, hr1, hr2, hr3⟩ := ih (j + 1) (T.afterProbe (T.arrive c)) fuel (by omega)
      (by rw [haft]) (by rw [haft]) (by rw [haft, hnext, Nat.succ_mul])
      (by rw [haft, hnext, Nat.succ_mul]; show j * T.d + T.d + T.dur j < _; omega) (by omega)
    refine ⟨r, hr1, hr2, ?_⟩
    rw [Timing.selects]
    have hcond : ((T.arrive c).pending
        && (!decide (T.t ≤ (T.arrive c).now) || T.pickTick (T.arrive c).calls)) = true := by
      rw [harr]; simp [h4]
    rw [if_pos hcond, hr3, List.range_succ_eq_map, List.map_cons, List.map_map]
    have hnow1 : (T.arrive c).now = (j + 0 + 1) * T.d := by
      rw [harr]; simp [hnext, Nat.succ_mul]
    rw [hnow1]
    simp only [List.cons_append, List.cons.injEq, true_and]
    congr 1
    apply List.map_congr_left
    intro i _
    simp only [Function.comp_apply]
    congr 2
    omega

theorem selects_prompt_start (T : Timing) (fuel : Nat) (hd : 0 < T.d)
    (hdur : ∀ i, T.dur i < T.d) (htie : ¬ T.d ∣ T.t) (hfuel : T.t / T.d + 1 ≤ fuel) :
    ∃ r, T.t ≤ r ∧ r < T.t + T.d ∧
      T.selects fuel T.start
        = (List.range (T.t / T.d)).map (fun i => (Recv.tick, (i + 1) * T.d))
          ++ [(Recv.done, r)] := by
  have hmod : T.t % T.d ≠ 0 := fun h => htie (Nat.dvd_of_mod_eq_zero h)
  have hlt : T.t % T.d < T.d := Nat.mod_lt _ hd
  have hdiv : T.d * (T.t / T.d) + T.t % T.d = T.t := Nat.div_add_mod _ _
  rw [Nat.mul_comm] at hdiv
  obtain ⟨r, hr1, hr2, hr3⟩ := selects_prompt T (T.t / T.d) hdur (by omega) (by omega)
    (T.t / T.d) 0 T.start fuel (by omega) rfl rfl (by simp [Timing.start])
    (by simp [Timing.start]; exact hd) hfuel
  refine ⟨r, hr1, hr2, ?_⟩
  rw [hr3]
  congr 1
  apply List.map_congr_left
  intro i _
  simp

theorem keepAlive_of_selects {σ : Type} (T : Timing) (fn : σ → σ) (s : σ) (fuel k r : Nat)
    (times : Nat → Nat) (hd : 0 < T.d)
    (hsel : T.selects fuel T.start
      = (List.range k).map (fun i => (Recv.tick, times i)) ++ [(Recv.done, r)]) :
    T.keepAlive fn fuel s = .ret { state := fn^[k] s, calls := k, returned := true } := by
  have hnot : ¬ ((T.d : Duration) ≤ 0) := not_le.mpr (by exact_mod_cast hd)
  have hmap : (T.selects fuel T.start).map Prod.fst
      = List.replicate k Recv.tick ++ [Recv.done] := by
    rw [hsel, List.map_append, List.map_map]
    congr 1
    clear hsel
    induction k with
    | zero => rfl
    | succ k ih => rw [List.range_succ, List.map_append, ih, List.replicate_succ']; rfl
  simp [Timing.keepAlive, Upterm.keepAlive, hnot, hmap, keepAliveFrom_ticks, keepAliveFrom]

/-- C10 (as stated, refuted): with a period of 50ms and a cancellation at
120ms, when the first probe takes 80ms the next `select` finds the tick of
100ms and the cancellation both ready; taking the tick, it calls the probe
at 130ms, after the cancellation; taking `<-ctx.Done()`, it returns after
one call of the probe, the tick delivered at 100ms going without one. -/
theorem keepAlive_slow_probe_counterexample :
    (slowTiming true).selects 4 (slowTiming true).start
      = [(Recv.tick, 50000000), (Recv.tick, 130000000), (Recv.done, 130000000)] ∧
    (slowTiming false).selects 4 (slowTiming false).start
      = [(Recv.tick, 50000000), (Recv.done, 130000000)] ∧
    (slowTiming false).keepAlive (pingServer relayEnv ⟨0⟩ ⟨7⟩) 4 []
      = .ret
          { state := [.sendRequest ⟨7⟩ "keepalive@openssh.com" true none
                (.failed (.foreign "EOF")),
              .logError ⟨0⟩ "error pinging server" (.foreign "EOF")]
            calls := 1
            returned := true } :=
  ⟨by decide, by decide, by decide⟩

/-- C10 (amended): with a positive period, with every probe returning in
less than one period and a cancellation time that is not a multiple of the
period, the `select`s of `keepAlive` take one tick at each multiple of the
period before the cancellation and then `<-ctx.Done()`, at or after the
cancellation and less than one period after it; the probe is called once
for each of these ticks, none of them after the cancellation, and
`keepAlive` returns. Under every timing `<-ctx.Done()` is taken no earlier
than the cancellation; the loop calls the probe once for each tick taken,
returns on `<-ctx.Done()` and on nothing else. The probe of `Establish`
sends one request per call whether or not requests fail, and a failure is
logged and nothing else. With a period of 50ms and a cancellation at 120ms
the probe is called twice, at 50ms and at 100ms. -/
theorem keepAlive_prompt_probes {σ : Type} (T : Timing) (fn : σ → σ) (s : σ) (fuel : Nat)
    (hd : 0 < T.d) (hdur : ∀ i, T.dur i < T.d) (htie : ¬ T.d ∣ T.t)
    (hfuel : T.t / T.d + 1 ≤ fuel) :
    (∃ r, T.t ≤ r ∧ r < T.t + T.d ∧
      T.selects fuel T.start
        = (List.range (T.t / T.d)).map (fun i => (Recv.tick, (i + 1) * T.d))
          ++ [(Recv.done, r)]) ∧
    (∀ τ, (Recv.tick, τ) ∈ T.selects fuel T.start → τ < T.t) ∧
    T.keepAlive fn fuel s
      = .ret { state := fn^[T.t / T.d] s, calls := T.t / T.d, returned := true } ∧
    (∀ (T1 : Timing) (fuel1 r : Nat), (Recv.done, r) ∈ T1.selects fuel1 T1.start → T1.t ≤ r) ∧
    (∀ (k : Nat) (rest : List Recv),
      keepAlive (T.d : Duration) fn (List.replicate k Recv.tick ++ Recv.done :: rest) s
        = .ret { state := fn^[k] s, calls := k, returned := true } ∧
      keepAlive (T.d : Duration) fn (List.replicate k Recv.tick) s
        = .ret { state := fn^[k] s, calls := k, returned := false }) ∧
    (∀ (env : Env) (logger : Logger) (cl : Client) (tr : List Event),
      T.keepAlive (pingServer env logger cl) fuel tr
        = .ret { state := (pingServer env logger cl)^[T.t / T.d] tr, calls := T.t / T.d,
                 returned := true } ∧
      sendRequests ((pingServer env logger cl)^[T.t / T.d] tr)
        = sendRequests tr + T.t / T.d ∧
      ∀ err, env.sendRequest tr cl env.OpenSSHKeepAliveRequestType true none = .failed err →
        pingServer env logger cl tr
          = tr ++ [.sendRequest cl env.OpenSSHKeepAliveRequestType true none (.failed err),
              .logError logger "error pinging server" err]) ∧
    (∀ (dur : Nat → Nat) (pick : Nat → Bool), (∀ i, dur i < 50000000) →
      ∃ r, 120000000 ≤ r ∧ r < 170000000 ∧
        (Timing.mk 50000000 120000000 dur pick).selects 3
            (Timing.mk 50000000 120000000 dur pick).start
          = [(Recv.tick, 50000000), (Recv.tick, 100000000), (Recv.done, r)] ∧
        (Timing.mk 50000000 120000000 dur pick).keepAlive fn 3 s
          = .ret { state := fn (fn s), calls := 2, returned := true }) := by
  have hnot : ¬ ((T.d : Duration) ≤ 0) := not_le.mpr (by exact_mod_cast hd)
  obtain ⟨r, hr1, hr2, hr3⟩ := selects_prompt_start T fuel hd hdur htie hfuel
  have hmod : T.t % T.d ≠ 0 := fun h => htie (Nat.dvd_of_mod_eq_zero h)
  have hdiv : T.d * (T.t / T.d) + T.t % T.d = T.t := Nat.div_add_mod _ _
  rw [Nat.mul_comm] at hdiv
  refine ⟨⟨r, hr1, hr2, hr3⟩, ?_, keepAlive_of_selects T fn s fuel _ r _ hd hr3,
    fun T1 fuel1 r1 h => selects_done_after_cancel T1 fuel1 _ r1 h, ?_, ?_, ?_⟩
  · intro τ hτ
    rw [hr3] at hτ
    simp only [List.mem_append, List.mem_map, List.mem_range, Prod.mk.injEq, true_and,
      List.mem_singleton, false_and, or_false, reduceCtorEq] at hτ
    obtain ⟨i, hi, rfl⟩ := hτ
    have hle : (i + 1) * T.d ≤ T.t / T.d * T.d := Nat.mul_le_mul_right _ (by omega)
    have hq : T.t / T.d * T.d < T.t := by omega
    exact lt_of_le_of_lt hle hq
  · intro k rest
    constructor
    · simp [keepAlive, hnot, keepAliveFrom_ticks, keepAliveFrom]
    · have h := keepAliveFrom_ticks fn k [] { state := s, calls := 0, returned := false }
      simp only [List.append_nil] at h
      simp [keepAlive, hnot, h, keepAliveFrom]
  · intro env logger cl tr
    refine ⟨keepAlive_of_selects T _ tr fuel _ r _ hd hr3,
      sendRequests_iterate_pingServer env logger cl _ tr, ?_⟩
    intro err h
    simp [pingServer, h]
  · intro dur pick hdur1
    obtain ⟨r1, h1, h2, h3⟩ := selects_prompt (Timing.mk 50000000 120000000 dur pick) 2 hdur1
      (by show 2 * 50000000 < 120000000; decide)
      (by show 120000000 < 2 * 50000000 + 50000000; decide) 2 0
      (Timing.mk 50000000 120000000 dur pick).start 3 rfl rfl rfl
      (by show 50000000 = 0 * 50000000 + 50000000; decide)
      (by show 0 < 0 * 50000000 + 50000000; decide) (by decide)
    have h2a : r1 < 120000000 + 50000000 := h2
    have h3a : (Timing.mk 50000000 120000000 dur pick).selects 3
          (Timing.mk 50000000 120000000 dur pick).start
        = List.map (fun i => (Recv.tick, (0 + i + 1) * 50000000)) (List.range 2)
          ++ [(Recv.done, r1)] := h3
    have e1 : (120000000 : Nat) + 50000000 = 170000000 := by decide
    have e2 : List.map (fun i => (Recv.tick, (0 + i + 1) * 50000000)) (List.range 2)
        = [(Recv.tick, 50000000), (Recv.tick, 100000000)] := by decide
    refine ⟨r1, h1, e1 ▸ h2a, ?_, ?_⟩
    · rw [h3a, e2]; rfl
    · exact keepAlive_of_selects (Timing.mk 50000000 120000000 dur pick) fn s 3 2 r1 _
        (by show 0 < 50000000; decide) h3

theorem keepAlive_prompt_probes_witness :
    (promptTiming true).keepAlive (pingServer relayEnv ⟨0⟩ ⟨7⟩) 3 []
      = .ret
          { state := [.sendRequest ⟨7⟩ "keepalive@openssh.com" true none
                (.failed (.foreign "EOF")),
              .logError ⟨0⟩ "error pinging server" (.foreign "EOF"),
              .sendRequest ⟨7⟩ "keepalive@openssh.com" true none (.replied true [])]
            calls := 2
            returned := true } :=
  (keepAlive_prompt_probes (promptTiming true) (pingServer relayEnv ⟨0⟩ ⟨7⟩) [] 3
    (by decide) (fun _ => by show (1000000 : Nat) < 50000000; decide) (by decide)
    (by decide)).2.2.1

end Upterm
